import Mathlib

/-!
# Verification of the craggy Roughtime client against its specification

This file gives a shallow embedding, in Lean 4, of the parts of the
`craggy` repository that the specification talks about:

* `craggy_roughtimeToEpoc` from `src/library/CraggyTimeUtils.c` — the
  timestamp converter (Modified Julian Date + microseconds-of-day to Unix
  epoch time, with half round-trip correction);
* the CLI session driver `main` from `src/cli/main.c` — command-line
  option handling, key/nonce length validation, the request/verify loop,
  the half round-trip correction and the ±10-minute offset check;
* the option handling and the 32-bit monotonic-clock truncation of the
  GNSS-variant driver (`roughtime-tester` main).

Machine integers are modelled as `Nat` with explicit reduction modulo
`2^64` (respectively `2^32`) at every operation where C unsigned
arithmetic can wrap.  Stateful code is modelled as a pure function from
its inputs (collaborator outcomes, clock readings) to an exit code and a
trace of observable events.
-/

/-! ## Machine arithmetic helpers -/

/-- `2^64`, the modulus of C `uint64_t` arithmetic. -/
def U64 : Nat := 2 ^ 64

/-- `2^32`, the modulus of C `uint32_t` arithmetic. -/
def U32 : Nat := 2 ^ 32

/-- C `uint64_t` subtraction `a - b`: wraps modulo `2^64`. -/
def u64sub (a b : Nat) : Nat := (a % U64 + U64 - b % U64) % U64

/-- C `uint32_t` subtraction `a - b`: wraps modulo `2^32`. -/
def u32sub (a b : Nat) : Nat := (a % U32 + U32 - b % U32) % U32

/-- Reinterpret a `uint64_t` value as a signed two's-complement
`int64_t`, as the C cast `(int64_t)` does on the target platforms. -/
def toInt64 (n : Nat) : Int :=
  if n % U64 < 2 ^ 63 then ((n % U64 : Nat) : Int)
  else ((n % U64 : Nat) : Int) - ((U64 : Nat) : Int)

/-! ## `src/library/CraggyTimeUtils.c` -/

/-- The result enumeration of the craggy library (`CraggyResult`).  Only
`CraggyResultSuccess` is produced by the code embedded here; the other
values are collapsed into a numbered error constructor. -/
inductive CraggyResult where
  | success
  | error (code : Nat)
  deriving DecidableEq

/-- `NUMBER_OF_JULIAN_DAYS_UNTIL_EPOCH` from CraggyTimeUtils.c. -/
def NUMBER_OF_JULIAN_DAYS_UNTIL_EPOCH : Nat := 40587

/-- `NUMBER_OF_MICROSECONDS_IN_SECOND` from CraggyTimeUtils.c. -/
def NUMBER_OF_MICROSECONDS_IN_SECOND : Nat := 1000000

/-- `NUMBER_OF_SECONDS_IN_A_DAY` from CraggyTimeUtils.c. -/
def NUMBER_OF_SECONDS_IN_A_DAY : Nat := 60 * 60 * 24

/-- Embedding of `craggy_roughtimeToEpoc` (CraggyTimeUtils.c, lines
22–44).  `time` is the `time` field of the `craggy_roughtime_result`
struct (a `uint64_t`); the function writes `*outTime` and returns a
`CraggyResult`; we return the pair.

The C body is
```
*outTime = ((time >> 40) - 40587) * 86400;
*outTime += (((time << 24) >> 24) + (rtt / 2)) / 1000000;
return CraggyResultSuccess;
```
every operation being `uint64_t` arithmetic (shifts, wrapping
subtraction, wrapping multiplication and addition, truncating
division). -/
def craggy_roughtimeToEpoc (time serverRoundTripUs : Nat) :
    CraggyResult × Nat :=
  (CraggyResult.success,
    ((u64sub (time % U64 / 2 ^ 40) NUMBER_OF_JULIAN_DAYS_UNTIL_EPOCH *
        NUMBER_OF_SECONDS_IN_A_DAY) % U64 +
      (((time % U64 * 2 ^ 24) % U64 / 2 ^ 24 +
          serverRoundTripUs % U64 / 2) % U64) /
        NUMBER_OF_MICROSECONDS_IN_SECOND) % U64)

/-- The timestamp conversion as the specification words it (§4.5):
`to_epoch_us` is claimed to return epoch MICROSECONDS, namely
`(MJD - 40587) * 86_400` seconds converted to microseconds plus
`(microseconds_since_midnight + round_trip_us / 2)`.  This definition is
written from the spec's words, for comparison against the embedding of
the source. -/
def to_epoch_us_spec (raw_timestamp round_trip_us : Nat) : Nat :=
  (raw_timestamp / 2 ^ 40 - 40587) * 86400 * 1000000 +
    (raw_timestamp % 2 ^ 40 + round_trip_us / 2)

/-- C1: on the fixture input `raw_timestamp = 65312145749359830`,
`round_trip_us = 1000000`, `craggy_roughtimeToEpoc` returns success and
`outTime = 1625585148`, and that value is exactly
`(days_since_epoch * 86_400_000_000 + microseconds_since_midnight +
round_trip_us / 2) / 1_000_000` for that input. -/
theorem roughtimeToEpoc_fixture :
    craggy_roughtimeToEpoc 65312145749359830 1000000 =
      (CraggyResult.success, 1625585148) ∧
    1625585148 =
      ((65312145749359830 / 2 ^ 40 - 40587) * 86400000000 +
        65312145749359830 % 2 ^ 40 + 1000000 / 2) / 1000000 := by
  constructor
  · rfl
  · rfl

/-- C2 (counterexample): the converter does not return the epoch
MICROSECONDS value the specification's §4.5 contract describes; at the
test fixture it returns the epoch seconds 1625585148 instead. -/
theorem roughtimeToEpoc_not_epoch_us :
    (craggy_roughtimeToEpoc 65312145749359830 1000000).2 ≠
      to_epoch_us_spec 65312145749359830 1000000 := by
  decide

/-- C2 (amended): for every 64-bit `raw_timestamp` and `round_trip_us`,
when the 24-bit MJD field is at least 40587 and no intermediate or final
64-bit overflow occurs, `craggy_roughtimeToEpoc` decodes the upper 24
bits as a Modified Julian Day count and the lower 40 bits as
microseconds since midnight, and returns epoch SECONDS equal to
`((MJD - 40587) * 86_400_000_000 + microseconds_since_midnight +
round_trip_us / 2) / 1_000_000`. -/
theorem roughtimeToEpoc_eq_spec_seconds (time rtt : Nat)
    (ht : time < 2 ^ 64) (hr : rtt < 2 ^ 64)
    (hmjd : 40587 ≤ time / 2 ^ 40)
    (hsum : time % 2 ^ 40 + rtt / 2 < 2 ^ 64)
    (hres : (time / 2 ^ 40 - 40587) * 86400 +
        (time % 2 ^ 40 + rtt / 2) / 1000000 < 2 ^ 64) :
    craggy_roughtimeToEpoc time rtt =
      (CraggyResult.success,
        ((time / 2 ^ 40 - 40587) * 86400000000 +
          (time % 2 ^ 40 + rtt / 2)) / 1000000) := by
  have hU : U64 = 2 ^ 64 := rfl
  have hq : time / 2 ^ 40 < 2 ^ 24 := by
    apply Nat.div_lt_of_lt_mul
    calc time < 2 ^ 64 := ht
    _ = 2 ^ 40 * 2 ^ 24 := by norm_num
  -- the low 40 bits survive the shift pair
  have hlow : (time % U64 * 2 ^ 24) % U64 / 2 ^ 24 = time % 2 ^ 40 := by
    rw [hU, Nat.mod_eq_of_lt ht]
    have hsplit : time * 2 ^ 24 =
        time % 2 ^ 40 * 2 ^ 24 + time / 2 ^ 40 * 2 ^ 64 := by
      conv_lhs => rw [← Nat.div_add_mod time (2 ^ 40)]
      ring
    rw [hsplit, Nat.add_mul_mod_self_right,
      Nat.mod_eq_of_lt (by
        have hm := Nat.mod_lt time (y := 2 ^ 40) (by norm_num)
        calc time % 2 ^ 40 * 2 ^ 24 < 2 ^ 40 * 2 ^ 24 :=
              (Nat.mul_lt_mul_right (by norm_num)).mpr hm
        _ = 2 ^ 64 := by norm_num),
      Nat.mul_div_cancel _ (by norm_num)]
  -- the wrapped day subtraction is the exact subtraction
  have hdsub : u64sub (time % U64 / 2 ^ 40)
      NUMBER_OF_JULIAN_DAYS_UNTIL_EPOCH = time / 2 ^ 40 - 40587 := by
    unfold u64sub NUMBER_OF_JULIAN_DAYS_UNTIL_EPOCH
    rw [hU, Nat.mod_eq_of_lt ht,
      Nat.mod_eq_of_lt (a := time / 2 ^ 40)
        (lt_trans hq (by norm_num)),
      Nat.mod_eq_of_lt (a := 40587) (by norm_num)]
    have h1 : time / 2 ^ 40 + 2 ^ 64 - 40587 =
        (time / 2 ^ 40 - 40587) + 2 ^ 64 := by omega
    rw [h1, Nat.add_mod_right, Nat.mod_eq_of_lt (by omega)]
  have hd1 : (time / 2 ^ 40 - 40587) * NUMBER_OF_SECONDS_IN_A_DAY % U64 =
      (time / 2 ^ 40 - 40587) * 86400 := by
    unfold NUMBER_OF_SECONDS_IN_A_DAY
    rw [hU]
    have : (time / 2 ^ 40 - 40587) * (60 * 60 * 24) < 2 ^ 64 := by
      calc (time / 2 ^ 40 - 40587) * (60 * 60 * 24)
          ≤ 2 ^ 24 * (60 * 60 * 24) := by
            apply Nat.mul_le_mul_right
            omega
      _ < 2 ^ 64 := by norm_num
    rw [Nat.mod_eq_of_lt this]
  have hfinal : ((time / 2 ^ 40 - 40587) * 86400000000 +
      (time % 2 ^ 40 + rtt / 2)) / 1000000 =
      (time / 2 ^ 40 - 40587) * 86400 +
        (time % 2 ^ 40 + rtt / 2) / 1000000 := by
    have h2 : (time / 2 ^ 40 - 40587) * 86400000000 =
        1000000 * ((time / 2 ^ 40 - 40587) * 86400) := by ring
    rw [h2, Nat.mul_add_div (by norm_num)]
  unfold craggy_roughtimeToEpoc
  rw [hlow, hdsub, hd1, hU, Nat.mod_eq_of_lt hr, Nat.mod_eq_of_lt hsum]
  unfold NUMBER_OF_MICROSECONDS_IN_SECOND
  rw [Nat.mod_eq_of_lt hres, hfinal]

/-- C2 (witness for the amended theorem): it applies at the fixture. -/
theorem roughtimeToEpoc_eq_spec_seconds_witness :
    craggy_roughtimeToEpoc 65312145749359830 1000000 =
      (CraggyResult.success,
        ((65312145749359830 / 2 ^ 40 - 40587) * 86400000000 +
          (65312145749359830 % 2 ^ 40 + 1000000 / 2)) / 1000000) :=
  roughtimeToEpoc_eq_spec_seconds 65312145749359830 1000000
    (by norm_num) (by norm_num) (by norm_num) (by norm_num) (by norm_num)

/-- C4: evaluating the converter at a raw timestamp whose 24-bit MJD
field is 0 (less than 40587).  The day subtraction wraps around modulo
`2^64` and the function still reports `CraggyResultSuccess` together
with the silently wrapped value, instead of treating the overflow as a
decode error. -/
theorem roughtimeToEpoc_wraps_silently :
    craggy_roughtimeToEpoc 0 0 =
      (CraggyResult.success, 18446744070202834816) ∧
    (craggy_roughtimeToEpoc 0 0).1 = CraggyResult.success := by
  constructor
  · rfl
  · rfl

/-! ## The CLI session driver (`src/cli/main.c`) -/

/-- One recognised command-line option of the CLI client together with
its argument (`getopt_long` with option string `"h:k:n:i:r:"`). -/
inductive CliOpt where
  | host (a : String)
  | nonce (a : String)
  | key (a : String)
  | intervals (a : String)
  | repeats (a : String)
  deriving DecidableEq

/-- The option-processing state of `main` (`src/cli/main.c`, lines
66–70): the `hostname`, `nonce` and `publicKey` pointers (modelled by
the string contents of the buffers they point to, `none` for `NULL`)
and the `repeats` / `intervals` counters (`uint8_t`, initialised to
1). -/
structure ArgState where
  hostname : Option String
  nonce : Option String
  publicKey : Option String
  repeats : Nat
  intervals : Nat
  deriving DecidableEq

/-- The initial option-processing state. -/
def initArgs : ArgState := ⟨none, none, none, 1, 1⟩

/-- `atoi` of an option argument assigned to a `uint8_t`. -/
def atoiU8 (s : String) : Nat := (s.toNat?.getD 0) % 256

/-- One step of the `getopt_long` switch in `src/cli/main.c` (lines
82–125).  The `'n'` case is the literal embedding of
```
nonce = malloc(strlen(optarg) + 1);
nonce = strcpy(hostname, optarg);
```
the argument is copied into the buffer `hostname` points to (so the
hostname string becomes the nonce argument) and `nonce` is set to that
same buffer; if `hostname` is `NULL` the `strcpy` is undefined
behaviour, modelled as `none` (crash). -/
def applyOpt (st : ArgState) : CliOpt → Option ArgState
  | .host a => some { st with hostname := some a }
  | .nonce a =>
    match st.hostname with
    | some _ => some { st with hostname := some a, nonce := some a }
    | none => none
  | .key a => some { st with publicKey := some a }
  | .intervals a => some { st with intervals := atoiU8 a }
  | .repeats a => some { st with repeats := atoiU8 a }

/-- The whole option-processing loop of the CLI client. -/
def parseArgs (opts : List CliOpt) : Option ArgState :=
  opts.foldlM applyOpt initArgs

/-- One recognised command-line option of the GNSS-variant client
(`getopt_long` with option string `"h:k:n:i:r:p:"`). -/
inductive GnssOpt where
  | host (a : String)
  | nonce (a : String)
  | key (a : String)
  | intervals (a : String)
  | repeats (a : String)
  | gpsport (a : String)
  deriving DecidableEq

/-- The option-processing state of the GNSS-variant `main` (the
`roughtime-tester` source, lines 107–112): as `ArgState` plus the
`gpsPort` pointer. -/
structure GnssArgState where
  hostname : Option String
  nonce : Option String
  publicKey : Option String
  gpsPort : Option String
  repeats : Nat
  intervals : Nat
  deriving DecidableEq

/-- The initial option-processing state of the GNSS variant. -/
def gnssInitArgs : GnssArgState := ⟨none, none, none, none, 1, 1⟩

/-- One step of the `getopt_long` switch of the GNSS-variant `main`
(lines 127–175).  Its `'n'` case is byte-for-byte the same
`nonce = strcpy(hostname, optarg);` as the CLI client's; `'p'` copies
into the global `simulator.port_name` buffer, which is never `NULL`. -/
def gnssApplyOpt (st : GnssArgState) : GnssOpt → Option GnssArgState
  | .host a => some { st with hostname := some a }
  | .nonce a =>
    match st.hostname with
    | some _ => some { st with hostname := some a, nonce := some a }
    | none => none
  | .key a => some { st with publicKey := some a }
  | .intervals a => some { st with intervals := atoiU8 a }
  | .repeats a => some { st with repeats := atoiU8 a }
  | .gpsport a => some { st with gpsPort := some a }

/-- The whole option-processing loop of the GNSS-variant client. -/
def gnssParseArgs (opts : List GnssOpt) : Option GnssArgState :=
  opts.foldlM gnssApplyOpt gnssInitArgs

/-- The outcomes of the external collaborators of one run of the CLI
client, in the order `main` consults them.  `mono i` is the value the
`i`-th call of `MonotonicUs()` returns, `realtime` the value
`RealtimeUs()` returns (both already truncated to `uint64_t` by the
callee); `keyDecodedLen` / `nonceDecodedLen` are the lengths
`base64_decode` reports for the `--key` / `--nonce` arguments;
`serverTimestamp` and `radius` are the `MIDP` timestamp and `RADI`
radius that `craggy_processResponse` writes on success; the `…Ok`
fields are the boolean results of the collaborator calls, and
`certSigOk`, `respSigOk`, `merkleOk` the outcomes of the three
verification steps inside `craggy_processResponse` (§4.4). -/
structure CliEnv where
  keyDecodedLen : Nat
  nonceDecodedLen : Nat
  generateNonceOk : Bool
  createRequestOk : Bool
  makeRequestOk : Bool
  certSigOk : Bool
  respSigOk : Bool
  merkleOk : Bool
  serverTimestamp : Nat
  radius : Nat
  mono : Nat → Nat
  realtime : Nat

/-- Modelled from the spec: `craggy_processResponse` — the response
validator lives in `CraggyClient.c`, which is not among the sources
here; §4.4 of the specification states it succeeds (and only then
yields `MIDP` and `RADI`) exactly when the certificate-signature check,
the response-signature check and the Merkle-path check all succeed. -/
def craggy_processResponse (certSigOk respSigOk merkleOk : Bool) : Bool :=
  certSigOk && respSigOk && merkleOk

/-- The observable events of one run of the CLI client: the `printf`s,
the clock reads and the network calls, in program order.
`readMonotonic i v` is the `i`-th `MonotonicUs()` call returning `v`;
`reportTime e r` is the `"Current time is …"` line printing estimate
`e` and radius `r`; `offsetExceeded` is the `goto error` taken when
`imaxabs(system_offset) > kTenMinutes`. -/
inductive MainEvent where
  | printUsage
  | keyLengthError
  | nonceLengthError
  | nonceGenError
  | startMarker
  | readMonotonic (i v : Nat)
  | sendRequest (host : String)
  | responseReceived
  | verifyError
  | makeRequestError
  | readRealtime (v : Nat)
  | reportTime (estimate : Nat) (radius : Nat)
  | reportOffset (offset : Int)
  | offsetExceeded
  | stopMarker
  deriving DecidableEq

/-- Result of one iteration of the repeat loop: continue (having
consumed the given number of `MonotonicUs()` readings) or `goto
error`. -/
inductive IterRes where
  | cont (clockReads : Nat)
  | fail
  deriving DecidableEq

/-- `kTenMinutes` from `src/cli/main.c` line 210: ten minutes in
microseconds. -/
def kTenMinutes : Nat := 10 * 60 * 1000000

/-- One iteration of the `while (repeats > 0)` loop of `src/cli/main.c`
(lines 175–227), embedded statement by statement:
```
if (craggy_createRequest(..)) {
  printf START;  start_us = MonotonicUs();
  if (craggy_makeRequest(hostname, ..)) {
    if (!craggy_processResponse(..)) { printf; goto error; }
    end_us = MonotonicUs();  end_realtime_us = RealtimeUs();
    timestamp += (end_us - start_us) / 2;
    printf "Current time is .." (timestamp, radius);
    system_offset = (int64_t)(timestamp - end_realtime_us);
    printf "System clock differs ..";
    if (imaxabs(system_offset) > kTenMinutes) goto error;
  } else { printf; goto error; }
  printf STOP;
}
```
`i` is the index of the next unconsumed `MonotonicUs()` reading. -/
def loopIter (env : CliEnv) (host : String) (i : Nat) :
    IterRes × List MainEvent :=
  if env.createRequestOk then
    let start_us := env.mono i
    if env.makeRequestOk then
      if craggy_processResponse env.certSigOk env.respSigOk env.merkleOk then
        let end_us := env.mono (i + 1)
        let end_realtime_us := env.realtime
        let timestamp :=
          (env.serverTimestamp % U64 + u64sub end_us start_us / 2) % U64
        let system_offset := toInt64 (u64sub timestamp end_realtime_us)
        if system_offset.natAbs > kTenMinutes then
          (IterRes.fail,
            [MainEvent.startMarker, .readMonotonic i start_us,
             .sendRequest host, .responseReceived,
             .readMonotonic (i + 1) end_us, .readRealtime end_realtime_us,
             .reportTime timestamp env.radius, .reportOffset system_offset,
             .offsetExceeded])
        else
          (IterRes.cont 2,
            [MainEvent.startMarker, .readMonotonic i start_us,
             .sendRequest host, .responseReceived,
             .readMonotonic (i + 1) end_us, .readRealtime end_realtime_us,
             .reportTime timestamp env.radius, .reportOffset system_offset,
             .stopMarker])
      else
        (IterRes.fail,
          [MainEvent.startMarker, .readMonotonic i (env.mono i),
           .sendRequest host, .responseReceived, .verifyError])
    else
      (IterRes.fail,
        [MainEvent.startMarker, .readMonotonic i (env.mono i),
         .sendRequest host, .makeRequestError])
  else
    (IterRes.cont 0, [])

/-- The `while (repeats > 0)` loop: runs `loopIter` until the repeat
count is exhausted or an iteration takes `goto error`. -/
def mainLoop (env : CliEnv) (host : String) : Nat → Nat → List MainEvent
  | 0, _ => []
  | r + 1, i =>
    match loopIter env host i with
    | (IterRes.fail, evs) => evs
    | (IterRes.cont used, evs) => evs ++ mainLoop env host r (i + used)

/-- The whole CLI `main` after option processing (`src/cli/main.c`,
lines 128–237), as exit code plus event trace.  `none` models the
undefined behaviour of `strcpy(hostname, optarg)` when `--nonce`
precedes `--host`.  Note that `result` is initialised to 1 and never
assigned again, so every path — including full success — exits with
status 1. -/
def mainRun (opts : List CliOpt) (env : CliEnv) :
    Option (Nat × List MainEvent) :=
  match parseArgs opts with
  | none => none
  | some st =>
    if st.publicKey.isNone || st.hostname.isNone || st.repeats < 1 then
      some (1, [MainEvent.printUsage])
    else
      if env.keyDecodedLen ≠ 32 then some (1, [MainEvent.keyLengthError])
      else
        match st.nonce with
        | some _ =>
          if env.nonceDecodedLen ≠ 32 then
            some (1, [MainEvent.nonceLengthError])
          else some (1, mainLoop env (st.hostname.getD "") st.repeats 0)
        | none =>
          if env.generateNonceOk then
            some (1, mainLoop env (st.hostname.getD "") st.repeats 0)
          else some (1, [MainEvent.nonceGenError])

/-- The mathematically exact corrected estimate: server timestamp plus
half the (true, non-wrapped) monotonic round trip `mono 1 - mono 0`. -/
def correctedEstimate (env : CliEnv) : Nat :=
  env.serverTimestamp + (env.mono 1 - env.mono 0) / 2

/-! ## The GNSS-variant correction (`roughtime-tester` main) -/

/-- Embedding of the GNSS-variant round-trip correction
(`roughtime-tester` main, lines 245–266):
```
const uint32_t start_us = MonotonicUs();   // truncated to 32 bits
...
const uint32_t end_us = MonotonicUs();     // truncated to 32 bits
timestamp += (end_us - start_us) / 2;      // uint32 subtraction
```
`mono0` and `mono1` are the full 64-bit values `MonotonicUs()`
returns; the assignments to `uint32_t` locals reduce them modulo
`2^32`, the subtraction wraps modulo `2^32`, and the halved correction
is added to the `uint64_t` server timestamp. -/
def gnssCorrectedTimestamp (serverTs mono0 mono1 : Nat) : Nat :=
  (serverTs % U64 + u32sub (mono1 % U32) (mono0 % U32) / 2) % U64

/-- Embedding of the non-GNSS CLI correction for comparison
(`src/cli/main.c`, lines 182–205): both clock values stay `uint64_t`
and the subtraction wraps modulo `2^64`. -/
def cliCorrectedTimestamp (serverTs mono0 mono1 : Nat) : Nat :=
  (serverTs % U64 + u64sub mono1 mono0 / 2) % U64

/-- In `u32sub`, reducing either operand modulo `2^32` first changes
nothing. -/
theorem u32sub_mod_left (a b : Nat) : u32sub (a % U32) b = u32sub a b := by
  simp [u32sub, Nat.mod_mod_of_dvd _ (dvd_refl U32)]

/-- In `u32sub`, reducing the subtrahend modulo `2^32` first changes
nothing. -/
theorem u32sub_mod_right (a b : Nat) : u32sub a (b % U32) = u32sub a b := by
  simp [u32sub, Nat.mod_mod_of_dvd _ (dvd_refl U32)]

/-- C10: in the GNSS-variant session driver the monotonic send and
receive timestamps are stored in 32-bit unsigned variables, so the
half-round-trip correction added to the server timestamp is a function
of the clock readings reduced modulo `2^32` only (first conjunct), and
it differs from the correction computed on the full 64-bit values: for
readings 0 and `2^32` the GNSS variant adds 0 where the 64-bit CLI
computation adds `2^31`. -/
theorem gnss_correction_truncated_mod32 :
    (∀ serverTs mono0 mono1 : Nat,
      gnssCorrectedTimestamp serverTs mono0 mono1 =
        gnssCorrectedTimestamp serverTs (mono0 % U32) (mono1 % U32)) ∧
    gnssCorrectedTimestamp 0 0 (2 ^ 32) = 0 ∧
    cliCorrectedTimestamp 0 0 (2 ^ 32) = 2 ^ 31 := by
  refine ⟨fun s m0 m1 => ?_, by decide, by decide⟩
  unfold gnssCorrectedTimestamp
  rw [Nat.mod_mod_of_dvd _ (dvd_refl U32), Nat.mod_mod_of_dvd _ (dvd_refl U32)]

/-- C9: in both CLI variants the `'n'` option case executes
`nonce = strcpy(hostname, optarg)`, copying the `--nonce` argument into
the buffer previously allocated for the hostname; hence after
`--host h --nonce n` the hostname equals the raw nonce argument `n` in
both parsers (first two conjuncts), and the exchange of the CLI client
then sends its request to `n` instead of `h` (third conjunct, an
environment in which the transport call fails so the run stops
there). -/
theorem nonce_option_clobbers_hostname (h n : String) :
    parseArgs [CliOpt.host h, CliOpt.nonce n] =
      some ⟨some n, some n, none, 1, 1⟩ ∧
    gnssParseArgs [GnssOpt.host h, GnssOpt.nonce n] =
      some ⟨some n, some n, none, none, 1, 1⟩ ∧
    mainRun [CliOpt.host h, CliOpt.key "k", CliOpt.nonce n]
        ⟨32, 32, true, true, false, false, false, false, 0, 0,
          fun _ => 0, 0⟩ =
      some (1, [MainEvent.startMarker, MainEvent.readMonotonic 0 0,
        MainEvent.sendRequest n, MainEvent.makeRequestError]) := by
  refine ⟨rfl, rfl, rfl⟩

/-! ## Arithmetic lemmas about the wrapped offset computation -/

/-- When no wrap occurs, `uint64_t` subtraction is exact. -/
theorem u64sub_exact (a b : Nat) (h : b ≤ a) (ha : a < U64) :
    u64sub a b = a - b := by
  have hb : b < U64 := lt_of_le_of_lt h ha
  unfold u64sub
  rw [Nat.mod_eq_of_lt ha, Nat.mod_eq_of_lt hb]
  have h1 : a + U64 - b = (a - b) + U64 := by omega
  rw [h1, Nat.add_mod_right, Nat.mod_eq_of_lt (by omega)]

/-- When the subtrahend is larger, `uint64_t` subtraction wraps to
`2^64` minus the true difference. -/
theorem u64sub_wrap (a b : Nat) (h : a < b) (hb : b < U64) :
    u64sub a b = U64 - (b - a) := by
  have ha : a < U64 := lt_trans h hb
  unfold u64sub
  rw [Nat.mod_eq_of_lt ha, Nat.mod_eq_of_lt hb]
  have h1 : a + U64 - b = U64 - (b - a) := by omega
  rw [h1, Nat.mod_eq_of_lt (by
    have hU : 0 < U64 := by norm_num [U64]
    omega)]

/-- A value below `2^63` reinterprets as itself. -/
theorem toInt64_natAbs_small (d : Nat) (hd : d < 2 ^ 63) :
    (toInt64 d).natAbs = d := by
  unfold toInt64
  have hdU : d < U64 := lt_trans hd (by norm_num [U64])
  rw [Nat.mod_eq_of_lt hdU, if_pos hd, Int.natAbs_ofNat]

/-- `2^64 - d` for `0 < d ≤ 2^63` reinterprets as `-d`. -/
theorem toInt64_natAbs_wrap (d : Nat) (hd1 : 0 < d) (hd2 : d ≤ 2 ^ 63) :
    (toInt64 (U64 - d)).natAbs = d := by
  unfold toInt64
  have hU : U64 = 2 ^ 64 := rfl
  have hlt : U64 - d < U64 := by
    rw [hU] at *
    omega
  rw [Nat.mod_eq_of_lt hlt, if_neg (by rw [hU] at *; omega)]
  have hcast : ((U64 - d : Nat) : Int) - (U64 : Int) = -(d : Int) := by
    have hdU : d ≤ U64 := by rw [hU] at *; omega
    push_cast [hdU]
    ring
  rw [hcast, Int.natAbs_neg, Int.natAbs_ofNat]

/-- The `imaxabs(system_offset) > kTenMinutes` test of the CLI client,
for clock-realistic values (both below `2^64` and within `2^63` of each
other), holds exactly when the two values differ by more than ten
minutes. -/
theorem offset_check_iff (t rt : Nat) (ht : t < U64) (hrt : rt < U64)
    (hnear1 : t < rt + 2 ^ 63) (hnear2 : rt < t + 2 ^ 63) :
    ((toInt64 (u64sub t rt)).natAbs > kTenMinutes ↔
      rt + kTenMinutes < t ∨ t + kTenMinutes < rt) := by
  have hk : kTenMinutes = 600000000 := rfl
  rcases le_or_lt rt t with hle | hlt
  · rw [u64sub_exact t rt hle ht, toInt64_natAbs_small (t - rt) (by omega),
      hk]
    omega
  · rw [u64sub_wrap t rt hlt hrt, toInt64_natAbs_wrap (rt - t) (by omega)
      (by omega), hk]
    omega

/-! ## Trace lemmas for the session driver -/

/-- A `reportTime` event can only come from the branch in which
`craggy_processResponse` succeeded. -/
theorem reportTime_mem_loopIter {env : CliEnv} {host : String} {i : Nat}
    {e rad : Nat}
    (hmem : MainEvent.reportTime e rad ∈ (loopIter env host i).2) :
    craggy_processResponse env.certSigOk env.respSigOk env.merkleOk =
      true := by
  unfold loopIter at hmem
  split at hmem
  · split at hmem
    · split at hmem
      · assumption
      · simp at hmem
    · simp at hmem
  · simp at hmem

/-- A `reportTime` event anywhere in the request loop's trace implies
the verification succeeded. -/
theorem reportTime_mem_mainLoop {env : CliEnv} {host : String} :
    ∀ {r i e rad : Nat},
      MainEvent.reportTime e rad ∈ mainLoop env host r i →
      craggy_processResponse env.certSigOk env.respSigOk env.merkleOk =
        true := by
  intro r
  induction r with
  | zero => intro i e rad hmem; simp [mainLoop] at hmem
  | succ n ih =>
    intro i e rad hmem
    unfold mainLoop at hmem
    rcases hIter : loopIter env host i with ⟨res, evs⟩
    rw [hIter] at hmem
    cases res with
    | fail =>
      exact reportTime_mem_loopIter (by rw [hIter]; exact hmem)
    | cont used =>
      simp only [] at hmem
      rcases List.mem_append.mp hmem with hl | hr
      · exact reportTime_mem_loopIter (by rw [hIter]; exact hl)
      · exact ih hr

/-- C3: for every invocation and every collaborator environment, the
CLI session driver's trace contains a `"Current time is …"` report (the
only way a midpoint timestamp and radius reach the caller's output)
only if the certificate-signature, response-signature and Merkle-path
checks inside `craggy_processResponse` all succeeded; on any
verification failure the run aborts with the error exit instead and no
timestamp event can appear. -/
theorem timestamp_reported_only_if_verified (opts : List CliOpt)
    (env : CliEnv) (code : Nat) (tr : List MainEvent)
    (hrun : mainRun opts env = some (code, tr))
    (hrep : ∃ e rad, MainEvent.reportTime e rad ∈ tr) :
    env.certSigOk = true ∧ env.respSigOk = true ∧ env.merkleOk = true := by
  obtain ⟨e, rad, hmem⟩ := hrep
  have hverif :
      craggy_processResponse env.certSigOk env.respSigOk env.merkleOk =
        true := by
    unfold mainRun at hrun
    split at hrun
    · exact absurd hrun (by simp)
    · split at hrun
      · simp only [Option.some.injEq, Prod.mk.injEq] at hrun
        obtain ⟨hcode, htr⟩ := hrun
        subst htr; simp at hmem
      · split at hrun
        · simp only [Option.some.injEq, Prod.mk.injEq] at hrun
          obtain ⟨hcode, htr⟩ := hrun
          subst htr; simp at hmem
        · split at hrun
          · split at hrun
            · simp only [Option.some.injEq, Prod.mk.injEq] at hrun
              obtain ⟨hcode, htr⟩ := hrun
              subst htr; simp at hmem
            · simp only [Option.some.injEq, Prod.mk.injEq] at hrun
              obtain ⟨hcode, htr⟩ := hrun
              subst htr
              exact reportTime_mem_mainLoop hmem
          · split at hrun
            · simp only [Option.some.injEq, Prod.mk.injEq] at hrun
              obtain ⟨hcode, htr⟩ := hrun
              subst htr
              exact reportTime_mem_mainLoop hmem
            · simp only [Option.some.injEq, Prod.mk.injEq] at hrun
              obtain ⟨hcode, htr⟩ := hrun
              subst htr; simp at hmem
  simpa [craggy_processResponse, Bool.and_eq_true, and_assoc] using hverif

/-- The request loop never emits the configuration-error events: the
nonce-length check happens before the loop is entered. -/
theorem nonceLengthError_not_mem_loopIter (env : CliEnv) (host : String)
    (i : Nat) : MainEvent.nonceLengthError ∉ (loopIter env host i).2 := by
  simp only [loopIter]
  split
  · split
    · split
      · split <;> simp
      · simp
    · simp
  · simp

/-- The nonce-length configuration error never appears in the request
loop's trace, whatever the repeat count. -/
theorem nonceLengthError_not_mem_mainLoop (env : CliEnv) (host : String) :
    ∀ r i : Nat, MainEvent.nonceLengthError ∉ mainLoop env host r i := by
  intro r
  induction r with
  | zero => intro i; simp [mainLoop]
  | succ n ih =>
    intro i
    unfold mainLoop
    rcases hIter : loopIter env host i with ⟨res, evs⟩
    cases res with
    | fail =>
      intro hmem
      exact nonceLengthError_not_mem_loopIter env host i
        (by rw [hIter]; exact hmem)
    | cont used =>
      intro hmem
      rcases List.mem_append.mp hmem with hl | hn
      · exact nonceLengthError_not_mem_loopIter env host i
          (by rw [hIter]; exact hl)
      · exact ih (i + used) hn

/-- C5: for every invocation that supplies a `--nonce` argument (with
the other configuration valid), a decoded nonce length of exactly 32
bytes is accepted and the run proceeds without a nonce-length error,
while every other decoded length — 31 and 33 in particular — is
rejected as a configuration error (exit status 1) before any exchange
is attempted: the whole trace is the single nonce-length-error event,
so no request is ever sent. -/
theorem nonce_length_32_enforced (opts : List CliOpt) (env : CliEnv)
    (st : ArgState) (ns : String)
    (hp : parseArgs opts = some st)
    (hhost : st.hostname.isSome = true)
    (hkeyGiven : st.publicKey.isSome = true)
    (hrep : 1 ≤ st.repeats) (hkey : env.keyDecodedLen = 32)
    (hn : st.nonce = some ns) :
    (env.nonceDecodedLen = 32 →
      ∃ tr, mainRun opts env = some (1, tr) ∧
        MainEvent.nonceLengthError ∉ tr) ∧
    (env.nonceDecodedLen ≠ 32 →
      mainRun opts env = some (1, [MainEvent.nonceLengthError]) ∧
      (∀ s, MainEvent.sendRequest s ∉ [MainEvent.nonceLengthError])) := by
  obtain ⟨hostv, hh⟩ := Option.isSome_iff_exists.mp hhost
  obtain ⟨keyv, hk⟩ := Option.isSome_iff_exists.mp hkeyGiven
  have hguard : (st.publicKey.isNone || st.hostname.isNone ||
      decide (st.repeats < 1)) = false := by
    rw [hh, hk]
    simp
    omega
  constructor
  · intro hlen
    refine ⟨mainLoop env (st.hostname.getD "") st.repeats 0, ?_, ?_⟩
    · unfold mainRun
      simp only [hp]
      rw [if_neg (by rw [hguard]; simp)]
      rw [if_neg (by rw [hkey]; simp)]
      simp only [hn]
      rw [if_neg (by rw [hlen]; simp)]
    · exact nonceLengthError_not_mem_mainLoop env _ st.repeats 0
  · intro hlen
    constructor
    · unfold mainRun
      simp only [hp]
      rw [if_neg (by rw [hguard]; simp)]
      rw [if_neg (by rw [hkey]; simp)]
      simp only [hn]
      rw [if_pos hlen]
    · intro s
      simp

/-- C6: for every invocation in which the `--key` or `--host` flag is
missing, or the `--key` value does not base64-decode to exactly 32
bytes, the CLI client exits with the non-zero status 1 before any
network activity: its whole trace is the usage message or the
key-length error, containing no request transmission, no response and
no clock read. -/
theorem config_error_exits_before_network (opts : List CliOpt)
    (env : CliEnv) (st : ArgState)
    (hp : parseArgs opts = some st)
    (hbad : st.publicKey = none ∨ st.hostname = none ∨
      env.keyDecodedLen ≠ 32) :
    ∃ tr, mainRun opts env = some (1, tr) ∧
      (∀ s, MainEvent.sendRequest s ∉ tr) ∧
      (∀ i v, MainEvent.readMonotonic i v ∉ tr) ∧
      MainEvent.responseReceived ∉ tr := by
  unfold mainRun
  simp only [hp]
  by_cases hguard : (st.publicKey.isNone || st.hostname.isNone ||
      decide (st.repeats < 1)) = true
  · refine ⟨[MainEvent.printUsage], ?_, ?_, ?_, ?_⟩
    · rw [if_pos hguard]
    · intro s; simp
    · intro i v; simp
    · simp
  · have hkeybad : env.keyDecodedLen ≠ 32 := by
      rcases hbad with hb | hb | hb
      · exact absurd (by rw [hb]; simp) hguard
      · exact absurd (by rw [hb]; simp) hguard
      · exact hb
    refine ⟨[MainEvent.keyLengthError], ?_, ?_, ?_, ?_⟩
    · rw [if_neg hguard, if_pos hkeybad]
    · intro s; simp
    · intro i v; simp
    · simp

/-- On an exchange in which every collaborator call succeeds, the whole
run of the CLI client reduces to one fully verified iteration whose
trace is determined by the ±10-minute offset check.  (Helper for the
theorems about the success path; repeat count 1, the default.) -/
theorem mainRun_success_trace (h k : String) (env : CliEnv)
    (hkey : env.keyDecodedLen = 32) (hgen : env.generateNonceOk = true)
    (hcr : env.createRequestOk = true) (hmk : env.makeRequestOk = true)
    (hcert : env.certSigOk = true) (hresp : env.respSigOk = true)
    (hmerk : env.merkleOk = true)
    (hmono : env.mono 0 ≤ env.mono 1) (hm1 : env.mono 1 < U64)
    (hts : env.serverTimestamp < U64)
    (hest : correctedEstimate env < U64) :
    mainRun [CliOpt.host h, CliOpt.key k] env =
      some (1,
        if kTenMinutes <
            (toInt64 (u64sub (correctedEstimate env) env.realtime)).natAbs
        then
          [MainEvent.startMarker, MainEvent.readMonotonic 0 (env.mono 0),
           MainEvent.sendRequest h, MainEvent.responseReceived,
           MainEvent.readMonotonic 1 (env.mono 1),
           MainEvent.readRealtime env.realtime,
           MainEvent.reportTime (correctedEstimate env) env.radius,
           MainEvent.reportOffset
             (toInt64 (u64sub (correctedEstimate env) env.realtime)),
           MainEvent.offsetExceeded]
        else
          [MainEvent.startMarker, MainEvent.readMonotonic 0 (env.mono 0),
           MainEvent.sendRequest h, MainEvent.responseReceived,
           MainEvent.readMonotonic 1 (env.mono 1),
           MainEvent.readRealtime env.realtime,
           MainEvent.reportTime (correctedEstimate env) env.radius,
           MainEvent.reportOffset
             (toInt64 (u64sub (correctedEstimate env) env.realtime)),
           MainEvent.stopMarker]) := by
  have hp : parseArgs [CliOpt.host h, CliOpt.key k] =
      some ⟨some h, none, some k, 1, 1⟩ := rfl
  have hcorr : (env.serverTimestamp % U64 +
      u64sub (env.mono (0 + 1)) (env.mono 0) / 2) % U64 =
      correctedEstimate env := by
    rw [Nat.mod_eq_of_lt hts, u64sub_exact _ _ hmono hm1]
    exact Nat.mod_eq_of_lt hest
  have hloop : mainLoop env h 1 0 =
      (if kTenMinutes <
          (toInt64 (u64sub (correctedEstimate env) env.realtime)).natAbs
      then
        [MainEvent.startMarker, MainEvent.readMonotonic 0 (env.mono 0),
         MainEvent.sendRequest h, MainEvent.responseReceived,
         MainEvent.readMonotonic 1 (env.mono 1),
         MainEvent.readRealtime env.realtime,
         MainEvent.reportTime (correctedEstimate env) env.radius,
         MainEvent.reportOffset
           (toInt64 (u64sub (correctedEstimate env) env.realtime)),
         MainEvent.offsetExceeded]
      else
        [MainEvent.startMarker, MainEvent.readMonotonic 0 (env.mono 0),
         MainEvent.sendRequest h, MainEvent.responseReceived,
         MainEvent.readMonotonic 1 (env.mono 1),
         MainEvent.readRealtime env.realtime,
         MainEvent.reportTime (correctedEstimate env) env.radius,
         MainEvent.reportOffset
           (toInt64 (u64sub (correctedEstimate env) env.realtime)),
         MainEvent.stopMarker]) := by
    by_cases hoff : kTenMinutes <
        (toInt64 (u64sub (correctedEstimate env) env.realtime)).natAbs
    · simp only [mainLoop, loopIter, hcr, hmk, hcert, hresp, hmerk,
        craggy_processResponse, Bool.and_self, hcorr, eq_self_iff_true,
        if_true, gt_iff_lt, if_pos hoff]
    · simp only [mainLoop, loopIter, hcr, hmk, hcert, hresp, hmerk,
        craggy_processResponse, Bool.and_self, hcorr, eq_self_iff_true,
        if_true, gt_iff_lt, if_neg hoff, List.append_nil]
  unfold mainRun
  simp only [hp]
  rw [if_neg (by simp), if_neg (by simp [hkey]), if_pos hgen]
  simp only [Option.getD_some, hloop]

/-- C7: in the non-GNSS CLI client, for every fully verified exchange
(collaborators succeed, clock values in range, corrected estimate and
realtime clock within `2^63` µs of each other so the signed 64-bit
offset is exact): if the corrected timestamp differs from the system
realtime clock by more than ten minutes (`kTenMinutes` =
600 000 000 µs) in absolute value, the run aborts through the error
exit with status 1 — the trace ends in `offsetExceeded` and never
reaches the stop marker; if the offset is within ten minutes, the
exchange completes normally with the stop marker and no
`offsetExceeded`.  (The process exit status is 1 on every path of this
`main`, its `result` variable never being reassigned.) -/
theorem offset_threshold_aborts (h k : String) (env : CliEnv)
    (hkey : env.keyDecodedLen = 32) (hgen : env.generateNonceOk = true)
    (hcr : env.createRequestOk = true) (hmk : env.makeRequestOk = true)
    (hcert : env.certSigOk = true) (hresp : env.respSigOk = true)
    (hmerk : env.merkleOk = true)
    (hmono : env.mono 0 ≤ env.mono 1) (hm1 : env.mono 1 < U64)
    (hts : env.serverTimestamp < U64) (hrt : env.realtime < U64)
    (hest : correctedEstimate env < U64)
    (hnear1 : correctedEstimate env < env.realtime + 2 ^ 63)
    (hnear2 : env.realtime < correctedEstimate env + 2 ^ 63) :
    (env.realtime + kTenMinutes < correctedEstimate env ∨
        correctedEstimate env + kTenMinutes < env.realtime →
      mainRun [CliOpt.host h, CliOpt.key k] env =
        some (1,
          [MainEvent.startMarker, MainEvent.readMonotonic 0 (env.mono 0),
           MainEvent.sendRequest h, MainEvent.responseReceived,
           MainEvent.readMonotonic 1 (env.mono 1),
           MainEvent.readRealtime env.realtime,
           MainEvent.reportTime (correctedEstimate env) env.radius,
           MainEvent.reportOffset
             (toInt64 (u64sub (correctedEstimate env) env.realtime)),
           MainEvent.offsetExceeded])) ∧
    (correctedEstimate env ≤ env.realtime + kTenMinutes ∧
        env.realtime ≤ correctedEstimate env + kTenMinutes →
      mainRun [CliOpt.host h, CliOpt.key k] env =
        some (1,
          [MainEvent.startMarker, MainEvent.readMonotonic 0 (env.mono 0),
           MainEvent.sendRequest h, MainEvent.responseReceived,
           MainEvent.readMonotonic 1 (env.mono 1),
           MainEvent.readRealtime env.realtime,
           MainEvent.reportTime (correctedEstimate env) env.radius,
           MainEvent.reportOffset
             (toInt64 (u64sub (correctedEstimate env) env.realtime)),
           MainEvent.stopMarker])) := by
  have hmain := mainRun_success_trace h k env hkey hgen hcr hmk hcert
    hresp hmerk hmono hm1 hts hest
  have hiff := offset_check_iff (correctedEstimate env) env.realtime
    hest hrt hnear1 hnear2
  constructor
  · intro hfar
    rw [if_pos (hiff.mpr hfar)] at hmain
    exact hmain
  · intro hnearby
    have hnot : ¬(env.realtime + kTenMinutes < correctedEstimate env ∨
        correctedEstimate env + kTenMinutes < env.realtime) := by
      omega
    rw [if_neg (fun hc => hnot (hiff.mp hc))] at hmain
    exact hmain

/-- C8: on every fully verified exchange (repeat count 1), the CLI
session driver reads the monotonic clock at trace position 1 — before
the request transmission at position 2 — and again at position 4 —
after the response arrives at position 3 — and the reported
current-time estimate at position 6 equals the server timestamp plus
half the measured monotonic round trip
`(env.mono 1 - env.mono 0) / 2`, i.e. `correctedEstimate env`. -/
theorem send_recv_times_and_correction (h k : String) (env : CliEnv)
    (hkey : env.keyDecodedLen = 32) (hgen : env.generateNonceOk = true)
    (hcr : env.createRequestOk = true) (hmk : env.makeRequestOk = true)
    (hcert : env.certSigOk = true) (hresp : env.respSigOk = true)
    (hmerk : env.merkleOk = true)
    (hmono : env.mono 0 ≤ env.mono 1) (hm1 : env.mono 1 < U64)
    (hts : env.serverTimestamp < U64)
    (hest : correctedEstimate env < U64) :
    ∃ tr, mainRun [CliOpt.host h, CliOpt.key k] env = some (1, tr) ∧
      tr[1]? = some (MainEvent.readMonotonic 0 (env.mono 0)) ∧
      tr[2]? = some (MainEvent.sendRequest h) ∧
      tr[3]? = some MainEvent.responseReceived ∧
      tr[4]? = some (MainEvent.readMonotonic 1 (env.mono 1)) ∧
      tr[6]? = some (MainEvent.reportTime
        (env.serverTimestamp + (env.mono 1 - env.mono 0) / 2)
        env.radius) := by
  have hmain := mainRun_success_trace h k env hkey hgen hcr hmk hcert
    hresp hmerk hmono hm1 hts hest
  by_cases hoff : kTenMinutes <
      (toInt64 (u64sub (correctedEstimate env) env.realtime)).natAbs
  · rw [if_pos hoff] at hmain
    exact ⟨_, hmain, rfl, rfl, rfl, rfl, rfl⟩
  · rw [if_neg hoff] at hmain
    exact ⟨_, hmain, rfl, rfl, rfl, rfl, rfl⟩

/-! ## Concrete environments for the witnesses -/

/-- A collaborator environment in which every call succeeds, both
base64 decodes yield 32 bytes, the server timestamp and radius are 0
and every clock reads 0. -/
def envAllOk : CliEnv :=
  ⟨32, 32, true, true, true, true, true, true, 0, 0, fun _ => 0, 0⟩

/-- Like `envAllOk` but the verified server timestamp is 700 000 000 µs
(eleven minutes and forty seconds) ahead of the realtime clock. -/
def envFarOff : CliEnv :=
  ⟨32, 32, true, true, true, true, true, true, 700000000, 0, fun _ => 0, 0⟩

/-- C3 (witness): the theorem applies at a concrete run — options
`--host a --key b`, all collaborators succeeding — whose trace does
contain a `reportTime` event. -/
theorem timestamp_reported_only_if_verified_witness :
    envAllOk.certSigOk = true ∧ envAllOk.respSigOk = true ∧
      envAllOk.merkleOk = true :=
  timestamp_reported_only_if_verified [CliOpt.host "a", CliOpt.key "b"]
    envAllOk 1
    [MainEvent.startMarker, MainEvent.readMonotonic 0 0,
     MainEvent.sendRequest "a", MainEvent.responseReceived,
     MainEvent.readMonotonic 1 0, MainEvent.readRealtime 0,
     MainEvent.reportTime 0 0, MainEvent.reportOffset 0,
     MainEvent.stopMarker]
    (by decide) ⟨0, 0, by decide⟩

/-- C5 (witness): the nonce-length theorem applies at the concrete
invocation `--host a --key b --nonce c`. -/
theorem nonce_length_32_enforced_witness :
    (envAllOk.nonceDecodedLen = 32 →
      ∃ tr, mainRun [CliOpt.host "a", CliOpt.key "b", CliOpt.nonce "c"]
          envAllOk = some (1, tr) ∧
        MainEvent.nonceLengthError ∉ tr) ∧
    (envAllOk.nonceDecodedLen ≠ 32 →
      mainRun [CliOpt.host "a", CliOpt.key "b", CliOpt.nonce "c"]
          envAllOk = some (1, [MainEvent.nonceLengthError]) ∧
      (∀ s, MainEvent.sendRequest s ∉ [MainEvent.nonceLengthError])) :=
  nonce_length_32_enforced
    [CliOpt.host "a", CliOpt.key "b", CliOpt.nonce "c"] envAllOk
    ⟨some "c", some "c", some "b", 1, 1⟩ "c"
    (by decide) rfl rfl (by decide) rfl rfl

/-- C6 (witness): the configuration-error theorem applies at the
concrete invocation `--key b` with no `--host`. -/
theorem config_error_exits_before_network_witness :
    ∃ tr, mainRun [CliOpt.key "b"] envAllOk = some (1, tr) ∧
      (∀ s, MainEvent.sendRequest s ∉ tr) ∧
      (∀ i v, MainEvent.readMonotonic i v ∉ tr) ∧
      MainEvent.responseReceived ∉ tr :=
  config_error_exits_before_network [CliOpt.key "b"] envAllOk
    ⟨none, none, some "b", 1, 1⟩ (by decide) (Or.inr (Or.inl rfl))

/-- C7 (witness): the offset-threshold theorem applies at the concrete
environment `envFarOff`, whose corrected estimate is 700 000 000 µs
ahead of the realtime clock, beyond the ten-minute threshold — the
trace ends in `offsetExceeded`. -/
theorem offset_threshold_aborts_witness :
    (envFarOff.realtime + kTenMinutes < correctedEstimate envFarOff ∨
        correctedEstimate envFarOff + kTenMinutes < envFarOff.realtime →
      mainRun [CliOpt.host "a", CliOpt.key "b"] envFarOff =
        some (1,
          [MainEvent.startMarker,
           MainEvent.readMonotonic 0 (envFarOff.mono 0),
           MainEvent.sendRequest "a", MainEvent.responseReceived,
           MainEvent.readMonotonic 1 (envFarOff.mono 1),
           MainEvent.readRealtime envFarOff.realtime,
           MainEvent.reportTime (correctedEstimate envFarOff)
             envFarOff.radius,
           MainEvent.reportOffset
             (toInt64 (u64sub (correctedEstimate envFarOff)
               envFarOff.realtime)),
           MainEvent.offsetExceeded])) ∧
    (correctedEstimate envFarOff ≤ envFarOff.realtime + kTenMinutes ∧
        envFarOff.realtime ≤ correctedEstimate envFarOff + kTenMinutes →
      mainRun [CliOpt.host "a", CliOpt.key "b"] envFarOff =
        some (1,
          [MainEvent.startMarker,
           MainEvent.readMonotonic 0 (envFarOff.mono 0),
           MainEvent.sendRequest "a", MainEvent.responseReceived,
           MainEvent.readMonotonic 1 (envFarOff.mono 1),
           MainEvent.readRealtime envFarOff.realtime,
           MainEvent.reportTime (correctedEstimate envFarOff)
             envFarOff.radius,
           MainEvent.reportOffset
             (toInt64 (u64sub (correctedEstimate envFarOff)
               envFarOff.realtime)),
           MainEvent.stopMarker])) :=
  offset_threshold_aborts "a" "b" envFarOff rfl rfl rfl rfl rfl rfl rfl
    (by decide) (by decide) (by decide) (by decide) (by decide)
    (by decide) (by decide)

/-- C8 (witness): the send/receive-ordering and correction theorem
applies at the concrete environment `envAllOk`. -/
theorem send_recv_times_and_correction_witness :
    ∃ tr, mainRun [CliOpt.host "a", CliOpt.key "b"] envAllOk =
        some (1, tr) ∧
      tr[1]? = some (MainEvent.readMonotonic 0 (envAllOk.mono 0)) ∧
      tr[2]? = some (MainEvent.sendRequest "a") ∧
      tr[3]? = some MainEvent.responseReceived ∧
      tr[4]? = some (MainEvent.readMonotonic 1 (envAllOk.mono 1)) ∧
      tr[6]? = some (MainEvent.reportTime
        (envAllOk.serverTimestamp +
          (envAllOk.mono 1 - envAllOk.mono 0) / 2)
        envAllOk.radius) :=
  send_recv_times_and_correction "a" "b" envAllOk rfl rfl rfl rfl rfl
    rfl rfl (by decide) (by decide) (by decide) (by decide)
